import Mathlib

/- Shallow embedding of the CleanLink optimizer service
   (cleanlink/services/optimizer/app.py and cleanlink/services/optimizer/directions.py).

   Modelling conventions:
   * Python floats are modelled as real numbers; Python ints as integers.
   * Python `int(x)` (truncation toward zero) is `pytrunc`;
     `round(x, 2)` (round-half-to-even at two decimals) is `pyround2`.
   * The external Naver call outcome for a coordinate pair is an oracle
     parameter of type `Except String (ℤ × ℤ)` carrying the parsed raw
     summary values (distance in meters, duration in milliseconds);
     `.error` models any raised exception (network failure, non-2xx
     status, malformed body, missing fields).  `NAVER_USE` is the
     boolean parameter `naverUse`.
   * The OR-Tools solver outcome is an oracle parameter
     `Option (List ℕ)`: `some order` models a found solution whose
     non-depot nodes, read off along the tour, are `order`; `none`
     models `SolveWithParameters` returning no solution.
   * Timestamps are minutes since midnight of the request date: the code
     parses `req.date + " 09:00"` (09:00 = 540 minutes) and only ever
     adds whole minutes to it, so a stop's `eta_ts` is faithfully
     represented by its minute offset `eta_min`.
-/

noncomputable section

/-- Coordinate pair (latitude, longitude), the Python 2-tuples of floats. -/
abbrev Coord : Type := ℝ × ℝ

/-- Python `int(x)` on a float: truncation toward zero. -/
def pytrunc (x : ℝ) : ℤ := if 0 ≤ x then ⌊x⌋ else ⌈x⌉

/-- Python `math.radians(x) = x * pi / 180`. -/
def radians (x : ℝ) : ℝ := x * Real.pi / 180

/-- `haversine_m` from directions.py: great-circle distance in meters,
truncated to an integer, Earth radius 6371.0 km. -/
def haversine_m (a b : Coord) : ℤ :=
  let R : ℝ := 6371.0
  let dlat := radians (b.1 - a.1)
  let dlon := radians (b.2 - a.2)
  let lat1 := radians a.1
  let lat2 := radians b.1
  let h := Real.sin (dlat / 2) ^ 2 +
    Real.cos lat1 * Real.cos lat2 * Real.sin (dlon / 2) ^ 2
  pytrunc (2 * R * Real.arcsin (Real.sqrt h) * 1000)

/-- `naver_distance_time` from directions.py, given the raw parsed summary
`(distance m, duration ms)` of the external call (or its failure): converts
the millisecond duration with `max(1, duration_ms // 60000)`.  An `.error`
outcome stands for any exception raised inside the Python coroutine. -/
def naver_distance_time (raw : Except String (ℤ × ℤ)) : Except String (ℤ × ℤ) :=
  match raw with
  | .error e => .error e
  | .ok p => .ok (p.1, max 1 (Int.fdiv p.2 60000))

/-- `distance_time` from directions.py: use the Naver result when
`NAVER_USE` holds and the call succeeded, otherwise fall back to the
haversine distance with walking speed 4.5 km/h (`4500/60.0` m/min). -/
def distance_time (naverUse : Bool) (raw : Except String (ℤ × ℤ)) (a b : Coord) : ℤ × ℤ :=
  match naverUse, naver_distance_time raw with
  | true, .ok p => p
  | _, _ =>
    let d_m := haversine_m a b
    let walking_mpm : ℝ := 4500 / 60.0
    (d_m, max 1 (pytrunc ((d_m : ℝ) / walking_mpm)))

/-- Pydantic `Vehicle` model from app.py. -/
structure Vehicle where
  id : ℤ
  type : String
  capacity : Option ℤ
  depot_lat : ℝ
  depot_lng : ℝ

/-- Pydantic `Job` model from app.py. -/
structure Job where
  id : ℤ
  name : String
  lat : ℝ
  lng : ℝ
  service_min : ℤ
  priority : ℤ
  tw_start : Option String
  tw_end : Option String
  date : String
  status : String

/-- Pydantic `OptimizeRequest` model from app.py. -/
structure OptimizeRequest where
  date : String
  area : String
  vehicles : List Vehicle
  jobs : List Job

/-- One record of the `route_stops` output list built in `optimize`.
`eta_min` is the emitted `eta_ts` timestamp measured in minutes since
midnight of the request date. -/
structure RouteStop where
  route_id : ℤ
  seq : ℤ
  job_id : ℤ
  eta_min : ℤ
  etc_min : ℤ
  dump_visit : Bool

/-- The single record of the `routes` output list built in `optimize`. -/
structure Route where
  id : ℤ
  vehicle_id : ℤ
  distance_km : ℝ
  duration_min : ℤ
  score : ℝ

/-- The `optimize` response body `{routes, route_stops}`. -/
structure OptimizeResponse where
  routes : List Route
  route_stops : List RouteStop

/-- A Python exception escaping an endpoint, or an explicit FastAPI
`HTTPException(status, detail)` (the only two error forms raised by this
repository: the bare `assert` in the optimizer and the 502
`HTTPException` in the gateway). -/
inductive PyError where
  | assertionError (msg : String)
  | httpException (status : ℕ) (detail : String)

/-- HTTP status under which an error reaches the wire.  An
`HTTPException` carries its own status; an uncaught `AssertionError` is
an unhandled server exception, which the ASGI framework (FastAPI /
Starlette, outside src/) reports as 500 Internal Server Error. -/
def PyError.httpStatus : PyError → ℕ
  | .assertionError _ => 500
  | .httpException s _ => s

/-- An error is a client-side request error when its HTTP status is in
the 4xx class. -/
def PyError.isClientRequestError (e : PyError) : Prop :=
  400 ≤ e.httpStatus ∧ e.httpStatus < 500

instance (e : PyError) : Decidable e.isClientRequestError := by
  unfold PyError.isClientRequestError; infer_instance

/-- Round half to even to the nearest integer (Python `round`'s tie rule). -/
def roundHalfEven (y : ℝ) : ℤ :=
  if y - ⌊y⌋ < 1 / 2 then ⌊y⌋
  else if 1 / 2 < y - ⌊y⌋ then ⌊y⌋ + 1
  else if Even ⌊y⌋ then ⌊y⌋ else ⌊y⌋ + 1

/-- Python `round(x, 2)`. -/
def pyround2 (x : ℝ) : ℝ := (roundHalfEven (100 * x) : ℝ) / 100

/-- Default `Job` used to express Python's `req.jobs[node - 1]` lookup as
a total function; all verified runs stay in range. -/
def dummyJob : Job := ⟨0, "", 0, 0, 0, 0, none, none, "", ""⟩

/-- The ETA / summary loop of `optimize` (`for node in route_order`):
walks the visiting order with state (previous node, next `seq`, current
clock in minutes, `km_total`, `min_total`) and returns the emitted stop
list together with the final `km_total` and `min_total`. -/
def schedLoop (jobs : List Job) (dist_m walk_min_mat : ℕ → ℕ → ℤ) :
    List ℕ → ℕ → ℤ → ℤ → ℝ → ℤ → List RouteStop × ℝ × ℤ
  | [], _, _, _, km, mn => ([], km, mn)
  | node :: rest, prev, seq, cur, km, mn =>
    let d := dist_m prev node
    let w := walk_min_mat prev node
    let job := jobs.getD (node - 1) dummyJob
    let cur2 := cur + w + job.service_min
    let out := schedLoop jobs dist_m walk_min_mat rest node (seq + 1) cur2
      (km + (d : ℝ) / 1000) (mn + w + job.service_min)
    (⟨9001, seq, job.id, cur2, job.service_min, false⟩ :: out.1, out.2)

/-- The visiting order consumed by the ETA loop: the solver's node list
when a solution was found, else the fallback `list(range(1, n))`. -/
def routeOrder (sol : Option (List ℕ)) (n : ℕ) : List ℕ :=
  match sol with
  | some order => order
  | none => List.range' 1 (n - 1)

/-- The score expression of `optimize`: `round(1.0 / (1.0 + km_total), 2)`. -/
def scoreOf (km : ℝ) : ℝ := pyround2 (1 / (1 + km))

/-- One cell of the distance/duration matrix of `optimize`: the diagonal
keeps the 0 sentinel, an off-diagonal cell (i, j) holds
`distance_time(points[i], points[j])` exactly as the `fill` coroutine
stores it. -/
def optCell (naverUse : Bool) (netRaw : Coord → Coord → Except String (ℤ × ℤ))
    (points : List Coord) (depot : Coord) (i j : ℕ) : ℤ × ℤ :=
  if i = j then (0, 0)
  else distance_time naverUse (netRaw (points.getD i depot) (points.getD j depot))
    (points.getD i depot) (points.getD j depot)

/-- `optimize` from app.py.  `naverUse` and `netRaw` feed the Provider
(`distance_time`) exactly as the matrix-builder coroutines do: the cell
(i, j), i ≠ j, holds `distance_time(points[i], points[j])`, diagonal
cells stay at the 0 sentinel.  `sol` is the OR-Tools outcome oracle.
The clock starts at 540 minutes (09:00) on the request date. -/
def optimize (naverUse : Bool) (netRaw : Coord → Coord → Except String (ℤ × ℤ))
    (sol : Option (List ℕ)) (req : OptimizeRequest) :
    Except PyError OptimizeResponse :=
  match req.vehicles with
  | [] => .error (.assertionError ("at least one vehicle required"))
  | v :: _ =>
    let depot : Coord := (v.depot_lat, v.depot_lng)
    let points : List Coord := depot :: req.jobs.map (fun j => (j.lat, j.lng))
    let n := points.length
    let dist_m : ℕ → ℕ → ℤ := fun i j => (optCell naverUse netRaw points depot i j).1
    let walk_min_mat : ℕ → ℕ → ℤ := fun i j => (optCell naverUse netRaw points depot i j).2
    let route_order := routeOrder sol n
    let out := schedLoop req.jobs dist_m walk_min_mat route_order 0 1 (9 * 60) 0 0
    .ok
      { routes := [{
          id := 9001,
          vehicle_id := v.id,
          distance_km := pyround2 out.2.1,
          duration_min := out.2.2,
          score := scoreOf out.2.1 }],
        route_stops := out.1 }

/-- Default `RouteStop` used for `getLastD` in statements. -/
def dummyStop : RouteStop := ⟨0, 0, 0, 0, 0, false⟩

/-- Default `Route` used for `headD` in statements. -/
def dummyRoute : Route := ⟨0, 0, 0, 0, 0⟩

/-- Request with an empty vehicle list used to analyse claim C7. -/
def C7req : OptimizeRequest := ⟨"2025-10-01", "SEOUL-XX", [], []⟩

/-- Extract the response of a succeeded `optimize` call (used to state
closed witness theorems without binders). -/
def okOr (r : Except PyError OptimizeResponse) : OptimizeResponse :=
  match r with
  | .ok x => x
  | .error _ => ⟨[], []⟩

/-- Concrete single-vehicle request with two jobs used by witnesses. -/
def Wreq : OptimizeRequest :=
  ⟨"2025-10-01", "SEOUL-XX",
   [⟨1, "WALK", some 0, 0, 0⟩],
   [⟨11, "a", 1, 1, 5, 0, none, none, "2025-10-01", "PLANNED"⟩,
    ⟨22, "b", 2, 2, 7, 0, none, none, "2025-10-01", "PLANNED"⟩]⟩

/-- Failing-network provider oracle used by witnesses. -/
def WnetRaw : Coord → Coord → Except String (ℤ × ℤ) := fun _ _ => Except.error "net down"

/-- Concrete single-vehicle request with no jobs, used by the C8 witness. -/
def WreqNoJobs : OptimizeRequest :=
  ⟨"2025-10-01", "SEOUL-XX", [⟨1, "WALK", some 0, 0, 0⟩], []⟩

/-- Request used for the C4 counterexample: one vehicle at the north
pole, one job at the south pole, so the fallback distance is about
20,015 km and `round(1/(1+km_total), 2)` collapses to 0.0. -/
def C4req : OptimizeRequest :=
  ⟨"2025-10-01", "SEOUL-XX",
   [⟨7, "WALK", some 0, 90, 0⟩],
   [⟨1, "far", -90, 0, 0, 0, none, none, "2025-10-01", "PLANNED"⟩]⟩

/-- Request of the C9 scenario: depot (37.5, 127.0), one job at
(37.51, 127.01) with `service_min = 10`, date "2025-10-01". -/
def C9req : OptimizeRequest :=
  ⟨"2025-10-01", "SEOUL-XX",
   [⟨1, "WALK", some 0, 37.5, 127.0⟩],
   [⟨1, "job", 37.51, 127.01, 10, 0, none, none, "2025-10-01", "PLANNED"⟩]⟩

end

section Helper

theorem pytrunc_of_nonneg {x : ℝ} (h : 0 ≤ x) : pytrunc x = ⌊x⌋ := if_pos h

theorem pytrunc_nonneg {x : ℝ} (h : 0 ≤ x) : 0 ≤ pytrunc x := by
  rw [pytrunc_of_nonneg h]; exact Int.floor_nonneg.mpr h

theorem haversine_m_symm (a b : Coord) : haversine_m a b = haversine_m b a := by
  unfold haversine_m
  dsimp only
  have e1 : Real.sin (radians (a.1 - b.1) / 2) ^ 2
      = Real.sin (radians (b.1 - a.1) / 2) ^ 2 := by
    have h : radians (a.1 - b.1) / 2 = -(radians (b.1 - a.1) / 2) := by
      unfold radians; ring
    rw [h, Real.sin_neg]; ring
  have e2 : Real.sin (radians (a.2 - b.2) / 2) ^ 2
      = Real.sin (radians (b.2 - a.2) / 2) ^ 2 := by
    have h : radians (a.2 - b.2) / 2 = -(radians (b.2 - a.2) / 2) := by
      unfold radians; ring
    rw [h, Real.sin_neg]; ring
  rw [e1, e2, mul_comm (Real.cos (radians b.1)) (Real.cos (radians a.1))]

theorem haversine_m_self (a : Coord) : haversine_m a a = 0 := by
  unfold haversine_m
  simp [radians, pytrunc]

theorem haversine_m_nonneg (a b : Coord) : 0 ≤ haversine_m a b := by
  unfold haversine_m
  dsimp only
  apply pytrunc_nonneg
  have hs : 0 ≤ Real.arcsin (Real.sqrt (Real.sin (radians (b.1 - a.1) / 2) ^ 2 +
      Real.cos (radians a.1) * Real.cos (radians b.1) *
        Real.sin (radians (b.2 - a.2) / 2) ^ 2)) :=
    Real.arcsin_nonneg.mpr (Real.sqrt_nonneg _)
  nlinarith [hs]

theorem distance_time_fallback_eq (u : Bool) (raw : Except String (ℤ × ℤ)) (a b : Coord)
    (h : u = false ∨ ∃ e, raw = Except.error e) :
    distance_time u raw a b
      = (haversine_m a b, max 1 ⌊(haversine_m a b : ℝ) / 75⌋) := by
  have hfb : (haversine_m a b, max 1 (pytrunc ((haversine_m a b : ℝ) / (4500 / 60.0))))
      = (haversine_m a b, max 1 ⌊(haversine_m a b : ℝ) / 75⌋) := by
    have h75 : (4500 : ℝ) / 60.0 = 75 := by norm_num
    rw [h75, pytrunc_of_nonneg]
    apply div_nonneg _ (by norm_num)
    exact_mod_cast haversine_m_nonneg a b
  rcases h with h | ⟨e, he⟩
  · subst h
    simpa [distance_time] using hfb
  · subst he
    simpa [distance_time, naver_distance_time] using hfb

theorem distance_time_minutes_pos (u : Bool) (raw : Except String (ℤ × ℤ)) (a b : Coord) :
    1 ≤ (distance_time u raw a b).2 := by
  rcases u with _ | _ <;> rcases raw with e | p <;>
    simp [distance_time, naver_distance_time, le_max_left]

theorem distance_time_meters_nonneg (u : Bool) (raw : Except String (ℤ × ℤ)) (a b : Coord)
    (hraw : ∀ p, raw = Except.ok p → 0 ≤ p.1) :
    0 ≤ (distance_time u raw a b).1 := by
  rcases u with _ | _ <;> rcases raw with e | p <;>
    simp [distance_time, naver_distance_time, haversine_m_nonneg]
  exact hraw p rfl

theorem optCell_snd_pos (u : Bool) (netRaw : Coord → Coord → Except String (ℤ × ℤ))
    (points : List Coord) (depot : Coord) {i j : ℕ} (h : i ≠ j) :
    1 ≤ (optCell u netRaw points depot i j).2 := by
  unfold optCell
  rw [if_neg h]
  exact distance_time_minutes_pos _ _ _ _

theorem optCell_fst_nonneg (u : Bool) (netRaw : Coord → Coord → Except String (ℤ × ℤ))
    (points : List Coord) (depot : Coord) (i j : ℕ)
    (hraw : ∀ a b p, netRaw a b = Except.ok p → 0 ≤ p.1) :
    0 ≤ (optCell u netRaw points depot i j).1 := by
  unfold optCell
  split_ifs
  · norm_num
  · exact distance_time_meters_nonneg _ _ _ _ (hraw _ _)

theorem roundHalfEven_intCast (n : ℤ) : roundHalfEven (n : ℝ) = n := by
  unfold roundHalfEven
  rw [Int.floor_intCast]
  simp

theorem roundHalfEven_nonneg {y : ℝ} (h : 0 ≤ y) : 0 ≤ roundHalfEven y := by
  unfold roundHalfEven
  have hf : 0 ≤ ⌊y⌋ := Int.floor_nonneg.mpr h
  split_ifs <;> omega

theorem roundHalfEven_le {y : ℝ} {n : ℤ} (h : y ≤ n) : roundHalfEven y ≤ n := by
  have hf : ⌊y⌋ ≤ n := by
    rw [← @Int.floor_intCast ℝ _ _ n]
    exact Int.floor_le_floor h
  unfold roundHalfEven
  split_ifs with h1 h2 h3
  · exact hf
  all_goals {
    have hfl : (⌊y⌋ : ℝ) ≤ y := Int.floor_le y
    have hlt : ⌊y⌋ < n := by
      by_contra hc
      have : ⌊y⌋ = n := le_antisymm hf (not_lt.mp hc)
      subst this
      have : y - ⌊y⌋ < 1 / 2 := by
        have : y ≤ (⌊y⌋ : ℝ) := by exact_mod_cast h
        linarith
      exact absurd this h1
    omega }

theorem roundHalfEven_eq_zero {y : ℝ} (h0 : 0 ≤ y) (h : y < 1 / 2) :
    roundHalfEven y = 0 := by
  have hf : ⌊y⌋ = 0 := Int.floor_eq_zero_iff.mpr ⟨h0, by linarith⟩
  unfold roundHalfEven
  rw [hf]
  have hc : y - ((0 : ℤ) : ℝ) < 1 / 2 := by push_cast; linarith
  rw [if_pos hc]

theorem roundHalfEven_mono {y z : ℝ} (h : y ≤ z) :
    roundHalfEven y ≤ roundHalfEven z := by
  have hf : ⌊y⌋ ≤ ⌊z⌋ := Int.floor_le_floor h
  rcases eq_or_lt_of_le hf with heq | hlt
  · unfold roundHalfEven
    rw [← heq]
    have hy : (⌊y⌋ : ℝ) ≤ y := Int.floor_le y
    split_ifs <;> first | omega | linarith
  · have h1 : roundHalfEven y ≤ ⌊y⌋ + 1 := by
      unfold roundHalfEven; split_ifs <;> omega
    have h2 : ⌊z⌋ ≤ roundHalfEven z := by
      unfold roundHalfEven; split_ifs <;> omega
    omega

theorem pyround2_zero : pyround2 0 = 0 := by
  unfold pyround2
  rw [mul_zero]
  rw [show ((0 : ℝ) = ((0 : ℤ) : ℝ)) from by norm_num, roundHalfEven_intCast]
  norm_num

theorem pyround2_one : pyround2 1 = 1 := by
  unfold pyround2
  rw [mul_one]
  rw [show ((100 : ℝ) = ((100 : ℤ) : ℝ)) from by norm_num, roundHalfEven_intCast]
  norm_num

theorem scoreOf_zero : scoreOf 0 = 1 := by
  unfold scoreOf
  norm_num [pyround2_one]

theorem scoreOf_mono {x y : ℝ} (hx : 0 ≤ x) (hxy : x ≤ y) : scoreOf y ≤ scoreOf x := by
  unfold scoreOf pyround2
  have hinv : 1 / (1 + y) ≤ 1 / (1 + x) :=
    one_div_le_one_div_of_le (by linarith) (by linarith)
  have := roundHalfEven_mono (mul_le_mul_of_nonneg_left hinv (by norm_num : (0:ℝ) ≤ 100))
  have hc : ((roundHalfEven (100 * (1 / (1 + y)))) : ℝ)
      ≤ ((roundHalfEven (100 * (1 / (1 + x)))) : ℝ) := by exact_mod_cast this
  linarith

theorem scoreOf_bounds {x : ℝ} (hx : 0 ≤ x) : 0 ≤ scoreOf x ∧ scoreOf x ≤ 1 := by
  unfold scoreOf pyround2
  have hpos : 0 < 1 + x := by linarith
  have hlo : 0 ≤ 100 * (1 / (1 + x)) := by positivity
  have hhi : 100 * (1 / (1 + x)) ≤ ((100 : ℤ) : ℝ) := by
    have : 1 / (1 + x) ≤ 1 := by
      rw [div_le_one hpos]; linarith
    push_cast
    linarith
  constructor
  · have := roundHalfEven_nonneg hlo
    positivity
  · have h1 : roundHalfEven (100 * (1 / (1 + x))) ≤ (100 : ℤ) := roundHalfEven_le hhi
    have h2 : ((roundHalfEven (100 * (1 / (1 + x)))) : ℝ) ≤ 100 := by exact_mod_cast h1
    linarith

theorem scoreOf_eq_zero {km : ℝ} (h : 200 ≤ km) : scoreOf km = 0 := by
  unfold scoreOf pyround2
  have hpos : (0:ℝ) < 1 + km := by linarith
  have h0 : 0 ≤ 100 * (1 / (1 + km)) := by positivity
  have h1 : 100 * (1 / (1 + km)) < 1 / 2 := by
    rw [mul_one_div, div_lt_div_iff₀ hpos (by norm_num : (0:ℝ) < 2)]
    linarith
  rw [roundHalfEven_eq_zero h0 h1]
  norm_num

theorem haversine_antipodal_eval :
    haversine_m (((90 : ℝ), (0 : ℝ)) : Coord) (((-90 : ℝ), (0 : ℝ)) : Coord)
      = ⌊(6371000 : ℝ) * Real.pi⌋ := by
  unfold haversine_m
  dsimp only
  have h1 : radians ((-90 : ℝ) - 90) / 2 = -(Real.pi / 2) := by unfold radians; ring
  have h2 : radians ((0 : ℝ) - 0) / 2 = 0 := by unfold radians; ring
  rw [h1, h2, Real.sin_neg, Real.sin_pi_div_two, Real.sin_zero]
  norm_num
  rw [pytrunc_of_nonneg (by positivity)]
  congr 1
  ring

theorem hav_antipodal_bounds :
    20015082 ≤ haversine_m (((90 : ℝ), (0 : ℝ)) : Coord) (((-90 : ℝ), (0 : ℝ)) : Coord) ∧
    haversine_m (((90 : ℝ), (0 : ℝ)) : Coord) (((-90 : ℝ), (0 : ℝ)) : Coord) ≤ 20015089 := by
  rw [haversine_antipodal_eval]
  have hl : (3.141592 : ℝ) < Real.pi := Real.pi_gt_d6
  have hu : Real.pi < 3.141593 := Real.pi_lt_d6
  constructor
  · apply Int.le_floor.mpr
    push_cast
    nlinarith
  · have hlt : ⌊(6371000 : ℝ) * Real.pi⌋ < 20015090 := by
      apply Int.floor_lt.mpr
      push_cast
      nlinarith
    omega

end Helper

section ListHelper

theorem map_getD_range {α : Type} (l : List α) (d : α) :
    (List.range l.length).map (fun k => l.getD k d) = l := by
  induction l with
  | nil => rfl
  | cons a t ih =>
    rw [List.length_cons, List.range_succ_eq_map, List.map_cons, List.map_map]
    rw [List.cons_eq_cons]
    refine ⟨rfl, ?_⟩
    rw [show ((fun k => (a :: t).getD k d) ∘ Nat.succ) = fun k => t.getD k d from ?_]
    · exact ih
    · funext k
      simp [Function.comp]

theorem map_getD_pred_range' {α : Type} (l : List α) (d : α) :
    (List.range' 1 l.length).map (fun k => l.getD (k - 1) d) = l := by
  rw [List.range'_eq_map_range, List.map_map]
  rw [show ((fun k => l.getD (k - 1) d) ∘ fun x => 1 + x) = fun k => l.getD k d from ?_]
  · exact map_getD_range l d
  · funext k
    simp [Function.comp, Nat.add_sub_cancel_left]

end ListHelper

section SchedLoopLemmas

variable {jobs : List Job} {dm wm : ℕ → ℕ → ℤ}

theorem schedLoop_length (order : List ℕ) :
    ∀ prev seq cur km mn,
      (schedLoop jobs dm wm order prev seq cur km mn).1.length = order.length := by
  induction order with
  | nil => intro prev seq cur km mn; rfl
  | cons node rest ih =>
    intro prev seq cur km mn
    simp only [schedLoop, List.length_cons, ih]

theorem schedLoop_map_seq (order : List ℕ) :
    ∀ prev seq cur km mn,
      (schedLoop jobs dm wm order prev seq cur km mn).1.map (fun s => s.seq)
        = (List.range order.length).map (fun k : ℕ => seq + (k : ℤ)) := by
  induction order with
  | nil => intro prev seq cur km mn; rfl
  | cons node rest ih =>
    intro prev seq cur km mn
    simp only [schedLoop, List.map_cons, ih, List.length_cons, List.range_succ_eq_map,
      List.map_map]
    refine List.cons_eq_cons.mpr ⟨by norm_num, ?_⟩
    apply List.map_congr_left
    intro k _
    simp only [Function.comp_apply]
    push_cast
    ring

theorem schedLoop_map_job_id (order : List ℕ) :
    ∀ prev seq cur km mn,
      (schedLoop jobs dm wm order prev seq cur km mn).1.map (fun s => s.job_id)
        = order.map (fun node => (jobs.getD (node - 1) dummyJob).id) := by
  induction order with
  | nil => intro prev seq cur km mn; rfl
  | cons node rest ih =>
    intro prev seq cur km mn
    simp only [schedLoop, List.map_cons, ih]

theorem schedLoop_eta_last (order : List ℕ) :
    ∀ prev seq cur km mn dflt, order ≠ [] →
      (((schedLoop jobs dm wm order prev seq cur km mn).1.getLastD dflt).eta_min)
        = cur + ((schedLoop jobs dm wm order prev seq cur km mn).2.2 - mn) := by
  induction order with
  | nil => intro _ _ _ _ _ _ h; exact absurd rfl h
  | cons node rest ih =>
    intro prev seq cur km mn dflt _
    by_cases hr : rest = []
    · subst hr
      simp only [schedLoop, List.getLastD_cons, List.getLastD_nil]
      ring
    · simp only [schedLoop, List.getLastD_cons]
      rw [ih _ _ _ _ _ _ hr]
      ring

theorem schedLoop_eta_chain (order : List ℕ)
    (hw : ∀ i j, i ≠ j → 1 ≤ wm i j)
    (hs : ∀ node ∈ order, 0 ≤ (jobs.getD (node - 1) dummyJob).service_min) :
    ∀ prev seq cur km mn, List.Chain' (fun a b => a ≠ b) (prev :: order) →
      List.Chain' (fun a b => a < b)
        (cur :: (schedLoop jobs dm wm order prev seq cur km mn).1.map
          (fun s => s.eta_min)) := by
  induction order with
  | nil => intro prev seq cur km mn _; simp [schedLoop]
  | cons node rest ih =>
    intro prev seq cur km mn hch
    simp only [schedLoop, List.map_cons, List.chain'_cons]
    rw [List.chain'_cons] at hch
    constructor
    · have h1 : 1 ≤ wm prev node := hw _ _ hch.1
      have h2 : 0 ≤ (jobs.getD (node - 1) dummyJob).service_min :=
        hs node (List.mem_cons_self _ _)
      omega
    · exact ih (fun n hn => hs n (List.mem_cons_of_mem _ hn)) node _ _ _ _ hch.2

theorem schedLoop_km_nonneg (order : List ℕ) (hd : ∀ i j, 0 ≤ dm i j) :
    ∀ prev seq cur (km : ℝ) mn, 0 ≤ km →
      0 ≤ (schedLoop jobs dm wm order prev seq cur km mn).2.1 := by
  induction order with
  | nil => intro _ _ _ km _ h; exact h
  | cons node rest ih =>
    intro prev seq cur km mn h
    simp only [schedLoop]
    apply ih
    have h0 : (0:ℝ) ≤ (dm prev node : ℝ) := by exact_mod_cast hd prev node
    positivity

end SchedLoopLemmas

section ScenarioNumerics


theorem sin_ival {t tl tu lo hi : ℝ} (h0 : 0 < tl) (h1 : tu ≤ 1)
    (htl : tl ≤ t) (htu : t ≤ tu)
    (hlo : lo ≤ tl - tu^3/6 - 5/96*tu^4) (hhi : tu - tl^3/6 + 5/96*tu^4 ≤ hi) :
    lo ≤ Real.sin t ∧ Real.sin t ≤ hi := by
  have ht0 : 0 ≤ t := by linarith
  have habs : |t| ≤ 1 := by rw [abs_le]; constructor <;> linarith
  have hb := Real.sin_bound habs
  rw [abs_le, abs_of_nonneg ht0] at hb
  have h3u : t^3 ≤ tu^3 := pow_le_pow_left₀ ht0 htu 3
  have h3l : tl^3 ≤ t^3 := pow_le_pow_left₀ (le_of_lt h0) htl 3
  have h4u : t^4 ≤ tu^4 := pow_le_pow_left₀ ht0 htu 4
  constructor
  · linarith [hb.1]
  · linarith [hb.2]

theorem cos_ival {t tl tu lo hi : ℝ} (h0 : 0 ≤ tl) (h1 : tu ≤ 1)
    (htl : tl ≤ t) (htu : t ≤ tu)
    (hlo : lo ≤ 1 - tu^2/2 - 5/96*tu^4) (hhi : 1 - tl^2/2 + 5/96*tu^4 ≤ hi) :
    lo ≤ Real.cos t ∧ Real.cos t ≤ hi := by
  have ht0 : 0 ≤ t := by linarith
  have habs : |t| ≤ 1 := by rw [abs_le]; constructor <;> linarith
  have hb := Real.cos_bound habs
  rw [abs_le, abs_of_nonneg ht0] at hb
  have h2u : t^2 ≤ tu^2 := pow_le_pow_left₀ ht0 htu 2
  have h2l : tl^2 ≤ t^2 := pow_le_pow_left₀ h0 htl 2
  have h4u : t^4 ≤ tu^4 := pow_le_pow_left₀ ht0 htu 4
  constructor
  · linarith [hb.1]
  · linarith [hb.2]

theorem quarter_cos_ival {s4 c4 s4l s4u c4l c4u lo hi : ℝ}
    (hs40 : 0 ≤ s4l) (hc40 : 0 ≤ c4l)
    (hs4l : s4l ≤ s4) (hs4u : s4 ≤ s4u) (hc4l : c4l ≤ c4) (hc4u : c4 ≤ c4u)
    (hlo : lo ≤ 1 - 8*(s4u*c4u)^2) (hhi : 1 - 8*(s4l*c4l)^2 ≤ hi) :
    lo ≤ 1 - 2*(2*s4*c4)^2 ∧ 1 - 2*(2*s4*c4)^2 ≤ hi := by
  have h0 : 0 ≤ s4 := le_trans hs40 hs4l
  have h0' : 0 ≤ c4 := le_trans hc40 hc4l
  have hml : s4l*c4l ≤ s4*c4 := mul_le_mul hs4l hc4l hc40 h0
  have hmu : s4*c4 ≤ s4u*c4u := mul_le_mul hs4u hc4u h0' (le_trans h0 hs4u)
  have hm0 : 0 ≤ s4l*c4l := mul_nonneg hs40 hc40
  have hsq_u : (s4*c4)^2 ≤ (s4u*c4u)^2 := by nlinarith
  have hsq_l : (s4l*c4l)^2 ≤ (s4*c4)^2 := by nlinarith
  constructor <;> nlinarith

theorem mul_ival {a b al au bl bu lo hi : ℝ} (ha : 0 ≤ al) (hb : 0 ≤ bl)
    (hal : al ≤ a) (hau : a ≤ au) (hbl : bl ≤ b) (hbu : b ≤ bu)
    (hlo : lo ≤ al*bl) (hhi : au*bu ≤ hi) : lo ≤ a*b ∧ a*b ≤ hi := by
  have h0a : 0 ≤ a := le_trans ha hal
  have h0b : 0 ≤ b := le_trans hb hbl
  constructor
  · nlinarith [mul_le_mul hal hbl hb h0a]
  · nlinarith [mul_le_mul hau hbu h0b (le_trans h0a hau)]

theorem h_ival {s P sl su Pl Pu lo hi : ℝ} (hs0 : 0 ≤ sl) (hP0 : 0 ≤ Pl)
    (hsl : sl ≤ s) (hsu : s ≤ su) (hPl : Pl ≤ P) (hPu : P ≤ Pu)
    (hlo : lo ≤ sl^2*(1+Pl)) (hhi : su^2*(1+Pu) ≤ hi) :
    lo ≤ s^2 + P*s^2 ∧ s^2 + P*s^2 ≤ hi := by
  have h0 : 0 ≤ s := le_trans hs0 hsl
  have hsq_l : sl^2 ≤ s^2 := by nlinarith
  have hsq_u : s^2 ≤ su^2 := by nlinarith
  constructor <;> nlinarith

theorem sqrt_ival {h hl hu rlo rhi : ℝ} (h0 : 0 ≤ rlo) (hr0 : 0 ≤ rhi)
    (hhl : hl ≤ h) (hhu : h ≤ hu) (hlo : rlo^2 ≤ hl) (hhi : hu ≤ rhi^2) :
    rlo ≤ Real.sqrt h ∧ Real.sqrt h ≤ rhi := by
  constructor
  · rw [show rlo = Real.sqrt (rlo^2) from (Real.sqrt_sq h0).symm]
    exact Real.sqrt_le_sqrt (by linarith)
  · rw [show rhi = Real.sqrt (rhi^2) from (Real.sqrt_sq hr0).symm]
    exact Real.sqrt_le_sqrt (by linarith)

theorem arcsin_ival {r rlo rhi b : ℝ} (h0 : 0 < rlo) (hrl : rlo ≤ r) (hru : r ≤ rhi)
    (hb1 : b ≤ 1) (hb0 : 0 < b)
    (hsb : rhi ≤ b - b^3/6 - 5/96*b^4) :
    rlo ≤ Real.arcsin r ∧ Real.arcsin r ≤ b := by
  have hbpos : 0 < b^3 := by positivity
  have hb4 : 0 < b^4 := by positivity
  have hrhib : rhi ≤ b := by nlinarith
  have hr1 : r ≤ 1 := by linarith
  constructor
  · have hpos : 0 < Real.arcsin r := Real.arcsin_pos.mpr (by linarith)
    have hs := Real.sin_arcsin (by linarith : (-1:ℝ) ≤ r) hr1
    have hlt := Real.sin_lt hpos
    rw [hs] at hlt
    linarith
  · have hsinb : r ≤ Real.sin b := by
      have habs : |b| ≤ 1 := by rw [abs_le]; constructor <;> linarith
      have hbnd := Real.sin_bound habs
      rw [abs_le, abs_of_nonneg (le_of_lt hb0)] at hbnd
      linarith [hbnd.1]
    have hmono := Real.monotone_arcsin hsinb
    have hpi : (3.141592 : ℝ) < Real.pi := Real.pi_gt_d6
    have harc : Real.arcsin (Real.sin b) = b :=
      Real.arcsin_sin (by linarith) (by linarith)
    rw [harc] at hmono
    exact hmono

theorem cos_via_quarter (θ : ℝ) :
    Real.cos θ = 1 - 2*(2*Real.sin (θ/4)*Real.cos (θ/4))^2 := by
  have h2 : Real.sin (θ/2) = 2*Real.sin (θ/4)*Real.cos (θ/4) := by
    rw [show θ/2 = 2*(θ/4) from by ring, Real.sin_two_mul]
  have harg : 2*(θ/2) = θ := by ring
  have h1 := Real.cos_two_mul (θ/2)
  rw [harg] at h1
  have hs := Real.sin_sq_add_cos_sq (θ/2)
  rw [h1, ← h2]
  nlinarith [hs]

theorem haversine_scenario :
    haversine_m (((37.5 : ℝ), (127.0 : ℝ)) : Coord) (((37.51 : ℝ), (127.01 : ℝ)) : Coord)
      = 1419 := by
  unfold haversine_m
  dsimp only
  have pl : (3.141592 : ℝ) < Real.pi := Real.pi_gt_d6
  have pu : Real.pi < 3.141593 := Real.pi_lt_d6
  have e1 : radians ((37.51 : ℝ) - 37.5) / 2 = Real.pi/36000 := by unfold radians; ring
  have e2 : radians ((127.01 : ℝ) - 127.0) / 2 = Real.pi/36000 := by unfold radians; ring
  rw [e1, e2, cos_via_quarter (radians 37.5), cos_via_quarter (radians 37.51)]
  have e3 : radians (37.5 : ℝ) / 4 = 5*Real.pi/96 := by unfold radians; ring
  have e4 : radians (37.51 : ℝ) / 4 = 3751*Real.pi/72000 := by unfold radians; ring
  rw [e3, e4]
  obtain ⟨hsl, hsu⟩ := @sin_ival (Real.pi/36000) ((392699 : ℝ) / 4500000000) ((3141593 : ℝ) / 36000000000)
    ((21816611 : ℝ) / 250000000000) ((87266473 : ℝ) / 1000000000000)
    (by norm_num) (by norm_num) (by linarith) (by linarith) (by norm_num) (by norm_num)
  obtain ⟨hs41l, hs41u⟩ := @sin_ival (5*Real.pi/96) ((392699 : ℝ) / 2400000) ((3141593 : ℝ) / 19200000)
    ((81428564651 : ℝ) / 500000000000) ((32586369639 : ℝ) / 200000000000)
    (by norm_num) (by norm_num) (by linarith) (by linarith) (by norm_num) (by norm_num)
  obtain ⟨hc41l, hc41u⟩ := @cos_ival (5*Real.pi/96) ((392699 : ℝ) / 2400000) ((3141593 : ℝ) / 19200000)
    ((493288078143 : ℝ) / 500000000000) ((986650830921 : ℝ) / 1000000000000)
    (by norm_num) (by norm_num) (by linarith) (by linarith) (by norm_num) (by norm_num)
  obtain ⟨hs42l, hs42u⟩ := @sin_ival (3751*Real.pi/72000) ((1473013949 : ℝ) / 9000000000) ((11784115343 : ℝ) / 72000000000)
    ((81450069217 : ℝ) / 500000000000) ((162974937017 : ℝ) / 1000000000000)
    (by norm_num) (by norm_num) (by linarith) (by linarith) (by norm_num) (by norm_num)
  obtain ⟨hc42l, hc42u⟩ := @cos_ival (3751*Real.pi/72000) ((1473013949 : ℝ) / 9000000000) ((11784115343 : ℝ) / 72000000000)
    ((123321122003 : ℝ) / 125000000000) ((986643730339 : ℝ) / 1000000000000)
    (by norm_num) (by norm_num) (by linarith) (by linarith) (by norm_num) (by norm_num)
  obtain ⟨hc1l, hc1u⟩ := @quarter_cos_ival (Real.sin (5*Real.pi/96)) (Real.cos (5*Real.pi/96))
    ((81428564651 : ℝ) / 500000000000) ((32586369639 : ℝ) / 200000000000) ((493288078143 : ℝ) / 500000000000) ((986650830921 : ℝ) / 1000000000000) ((793257898387 : ℝ) / 1000000000000) ((79347873923 : ℝ) / 100000000000)
    (by norm_num) (by norm_num) hs41l hs41u hc41l hc41u (by norm_num) (by norm_num)
  obtain ⟨hc2l, hc2u⟩ := @quarter_cos_ival (Real.sin (3751*Real.pi/72000)) (Real.cos (3751*Real.pi/72000))
    ((81450069217 : ℝ) / 500000000000) ((162974937017 : ℝ) / 1000000000000) ((123321122003 : ℝ) / 125000000000) ((986643730339 : ℝ) / 1000000000000) ((396575755751 : ℝ) / 500000000000) ((396686325811 : ℝ) / 500000000000)
    (by norm_num) (by norm_num) hs42l hs42u hc42l hc42u (by norm_num) (by norm_num)
  obtain ⟨hPl, hPu⟩ := @mul_ival
    (1 - 2*(2*Real.sin (5*Real.pi/96)*Real.cos (5*Real.pi/96))^2)
    (1 - 2*(2*Real.sin (3751*Real.pi/72000)*Real.cos (3751*Real.pi/72000))^2)
    ((793257898387 : ℝ) / 1000000000000) ((79347873923 : ℝ) / 100000000000) ((396575755751 : ℝ) / 500000000000) ((396686325811 : ℝ) / 500000000000) ((157293425279 : ℝ) / 250000000000) ((629524331349 : ℝ) / 1000000000000)
    (by norm_num) (by norm_num) hc1l hc1u hc2l hc2u (by norm_num) (by norm_num)
  obtain ⟨hhl, hhu⟩ := @h_ival (Real.sin (Real.pi/36000))
    ((1 - 2*(2*Real.sin (5*Real.pi/96)*Real.cos (5*Real.pi/96))^2) *
      (1 - 2*(2*Real.sin (3751*Real.pi/72000)*Real.cos (3751*Real.pi/72000))^2))
    ((21816611 : ℝ) / 250000000000) ((87266473 : ℝ) / 1000000000000) ((157293425279 : ℝ) / 250000000000) ((629524331349 : ℝ) / 1000000000000)
    (((21816611 : ℝ) / 250000000000)^2*(1+((157293425279 : ℝ) / 250000000000))) (((87266473 : ℝ) / 1000000000000)^2*(1+((629524331349 : ℝ) / 1000000000000)))
    (by norm_num) (by norm_num) hsl hsu hPl hPu le_rfl le_rfl
  obtain ⟨hrl, hru⟩ := @sqrt_ival
    (Real.sin (Real.pi/36000)^2 +
      (1 - 2*(2*Real.sin (5*Real.pi/96)*Real.cos (5*Real.pi/96))^2) *
        (1 - 2*(2*Real.sin (3751*Real.pi/72000)*Real.cos (3751*Real.pi/72000))^2) *
        Real.sin (Real.pi/36000)^2)
    (((21816611 : ℝ) / 250000000000)^2*(1+((157293425279 : ℝ) / 250000000000))) (((87266473 : ℝ) / 1000000000000)^2*(1+((629524331349 : ℝ) / 1000000000000)))
    ((55693047 : ℝ) / 500000000000) ((111398117 : ℝ) / 1000000000000)
    (by norm_num) (by norm_num) hhl hhu (by norm_num) (by norm_num)
  obtain ⟨hal, hau⟩ := @arcsin_ival
    (Real.sqrt (Real.sin (Real.pi/36000)^2 +
      (1 - 2*(2*Real.sin (5*Real.pi/96)*Real.cos (5*Real.pi/96))^2) *
        (1 - 2*(2*Real.sin (3751*Real.pi/72000)*Real.cos (3751*Real.pi/72000))^2) *
        Real.sin (Real.pi/36000)^2))
    ((55693047 : ℝ) / 500000000000) ((111398117 : ℝ) / 1000000000000) ((111399117 : ℝ) / 1000000000000)
    (by norm_num) hrl hru (by norm_num) (by norm_num) (by norm_num)
  rw [pytrunc_of_nonneg (by linarith [hal])]
  rw [Int.floor_eq_iff]
  constructor
  · have hc : ((1419 : ℤ) : ℝ) = (1419 : ℝ) := by norm_num
    rw [hc]
    linarith [hal]
  · have hc : ((1419 : ℤ) : ℝ) + 1 = (1420 : ℝ) := by norm_num
    rw [hc]
    linarith [hau]


theorem floor_1419_75 : ⌊((1419 : ℤ) : ℝ) / 75⌋ = 18 := by
  rw [Int.floor_eq_iff]
  constructor
  · push_cast; norm_num
  · push_cast; norm_num

theorem dt_scenario :
    distance_time false (Except.error "net down")
      (((37.5 : ℝ), (127.0 : ℝ)) : Coord) (((37.51 : ℝ), (127.01 : ℝ)) : Coord)
      = (1419, 18) := by
  rw [distance_time_fallback_eq false (Except.error "net down") _ _ (Or.inl rfl)]
  rw [haversine_scenario, floor_1419_75]
  norm_num

theorem pyround2_val_1419 : pyround2 (0 + ((1419 : ℤ) : ℝ) / 1000) = 1.42 := by
  unfold pyround2
  rw [show (100 : ℝ) * (0 + ((1419 : ℤ) : ℝ) / 1000) = 1419 / 10 from by push_cast; norm_num]
  have hf : ⌊(1419 : ℝ) / 10⌋ = 141 := by
    rw [Int.floor_eq_iff]
    constructor
    · push_cast; norm_num
    · push_cast; norm_num
  unfold roundHalfEven
  rw [hf]
  rw [if_neg (by push_cast; norm_num), if_pos (by push_cast; norm_num)]
  norm_num

theorem scoreOf_val_1419 : scoreOf (0 + ((1419 : ℤ) : ℝ) / 1000) = 0.41 := by
  unfold scoreOf pyround2
  rw [show (100 : ℝ) * (1 / (1 + (0 + ((1419 : ℤ) : ℝ) / 1000))) = 100000 / 2419 from by
    push_cast; norm_num]
  have hf : ⌊(100000 : ℝ) / 2419⌋ = 41 := by
    rw [Int.floor_eq_iff]
    constructor
    · push_cast; norm_num
    · push_cast; norm_num
  unfold roundHalfEven
  rw [hf]
  rw [if_pos (by push_cast; norm_num)]
  norm_num

end ScenarioNumerics

section Claims

/-- C6: the Geodesic Estimator `haversine_m` is pure and total (it is a
function), symmetric in its two coordinate arguments, and returns 0
whenever the two coordinates are equal. -/
theorem C6_haversine_symm_self :
    (∀ a b : Coord, haversine_m a b = haversine_m b a) ∧
    (∀ a : Coord, haversine_m a a = 0) :=
  ⟨haversine_m_symm, haversine_m_self⟩

/-- C3: `distance_time` never raises (it is total: every failure of the
external call is absorbed into the `.error` case of its oracle), and
whenever the provider is not enabled or its call fails it returns exactly
`(haversine_m a b, max 1 ⌊haversine_m a b / 75⌋)`, so the returned
minutes are at least 1. -/
theorem C3_provider_fallback (u : Bool) (raw : Except String (ℤ × ℤ)) (a b : Coord)
    (h : u = false ∨ ∃ e, raw = Except.error e) :
    distance_time u raw a b
      = (haversine_m a b, max 1 ⌊(haversine_m a b : ℝ) / 75⌋) ∧
    1 ≤ (distance_time u raw a b).2 :=
  ⟨distance_time_fallback_eq u raw a b h, distance_time_minutes_pos u raw a b⟩

theorem C3_provider_fallback_witness :
    ((false = false ∨ ∃ e, (Except.error "down" : Except String (ℤ × ℤ)) = Except.error e) ∧
      (distance_time false (Except.error "down") ((0, 0) : Coord) ((1, 1) : Coord)
          = (haversine_m ((0, 0) : Coord) ((1, 1) : Coord),
             max 1 ⌊(haversine_m ((0, 0) : Coord) ((1, 1) : Coord) : ℝ) / 75⌋) ∧
        1 ≤ (distance_time false (Except.error "down") ((0, 0) : Coord) ((1, 1) : Coord)).2)) :=
  ⟨Or.inl rfl, C3_provider_fallback false (Except.error "down") (0, 0) (1, 1) (Or.inl rfl)⟩

/-- C7 counterexample: on an empty vehicle list `optimize` does fail
fast, but the failure is an uncaught `AssertionError` — reported by the
HTTP layer with status 500 — which is not a client-side (4xx) request
error, contradicting the claim's classification. -/
theorem C7_counterexample :
    optimize false (fun _ _ => Except.error "net") none C7req
      = Except.error (PyError.assertionError ("at least one vehicle required")) ∧
    ¬ (PyError.assertionError ("at least one vehicle required")).isClientRequestError :=
  ⟨rfl, by decide⟩

/-- C7 (amended): for every request whose vehicle list is empty,
`optimize` fails fast via its `assert` — independently of the provider
oracle and the solver oracle, i.e. before any matrix or solver work can
influence the outcome — and the failure surfaces as an uncaught
`AssertionError`, a server-side 500 error rather than a client-side
request error. -/
theorem C7_empty_vehicles_assert (u : Bool)
    (netRaw : Coord → Coord → Except String (ℤ × ℤ))
    (sol : Option (List ℕ)) (req : OptimizeRequest) (h : req.vehicles = []) :
    optimize u netRaw sol req
      = Except.error (PyError.assertionError ("at least one vehicle required")) ∧
    ¬ (PyError.assertionError ("at least one vehicle required")).isClientRequestError := by
  obtain ⟨d, ar, vs, js⟩ := req
  simp only at h
  subst h
  exact ⟨rfl, by decide⟩

theorem C7_empty_vehicles_assert_witness :
    (C7req.vehicles = []) ∧
    (optimize true (fun _ _ => Except.ok (5, 70000)) (some [1]) C7req
        = Except.error (PyError.assertionError ("at least one vehicle required")) ∧
      ¬ (PyError.assertionError ("at least one vehicle required")).isClientRequestError) :=
  ⟨rfl, C7_empty_vehicles_assert true (fun _ _ => Except.ok (5, 70000)) (some [1]) C7req rfl⟩

/-- C1: for every request with at least one vehicle and a non-empty job
list, and every visiting order produced by the solver stage (a
permutation of the job nodes 1..N-1; the fallback order satisfies this
as well), `optimize` returns exactly one Route, exactly `len(jobs)`
Route Stops, and the `seq` fields in output order are exactly
1, 2, ..., len(jobs). -/
theorem C1_one_route_seq_consecutive (u : Bool)
    (netRaw : Coord → Coord → Except String (ℤ × ℤ)) (sol : Option (List ℕ))
    (req : OptimizeRequest) (resp : OptimizeResponse)
    (hv : req.vehicles ≠ []) (hj : req.jobs ≠ [])
    (hord : (routeOrder sol (req.jobs.length + 1)).Perm (List.range' 1 req.jobs.length))
    (hresp : optimize u netRaw sol req = Except.ok resp) :
    resp.routes.length = 1 ∧
    resp.route_stops.length = req.jobs.length ∧
    resp.route_stops.map (fun s => s.seq)
      = (List.range' 1 req.jobs.length).map (fun k : ℕ => (k : ℤ)) := by
  obtain ⟨d, ar, vehicles, js⟩ := req
  cases vehicles with
  | nil => exact absurd rfl hv
  | cons v vs =>
    simp only at hord ⊢
    simp only [optimize] at hresp
    rw [Except.ok.injEq] at hresp
    subst hresp
    have hL : (routeOrder sol (js.length + 1)).length = js.length := by
      simpa using hord.length_eq
    refine ⟨rfl, ?_, ?_⟩
    · simp only [List.length_cons, List.length_map]
      rw [schedLoop_length, hL]
    · simp only [List.length_cons, List.length_map]
      rw [schedLoop_map_seq, hL, List.range'_eq_map_range, List.map_map]
      apply List.map_congr_left
      intro k _
      simp only [Function.comp_apply]
      push_cast
      ring

theorem C1_one_route_seq_consecutive_witness :
    (Wreq.vehicles ≠ [] ∧ Wreq.jobs ≠ [] ∧
      (routeOrder none (Wreq.jobs.length + 1)).Perm (List.range' 1 Wreq.jobs.length) ∧
      optimize false WnetRaw none Wreq = Except.ok (okOr (optimize false WnetRaw none Wreq))) ∧
    ((okOr (optimize false WnetRaw none Wreq)).routes.length = 1 ∧
      (okOr (optimize false WnetRaw none Wreq)).route_stops.length = Wreq.jobs.length ∧
      (okOr (optimize false WnetRaw none Wreq)).route_stops.map (fun s => s.seq)
        = (List.range' 1 Wreq.jobs.length).map (fun k : ℕ => (k : ℤ))) :=
  ⟨⟨List.cons_ne_nil _ _, List.cons_ne_nil _ _, List.Perm.refl _, rfl⟩,
    C1_one_route_seq_consecutive false WnetRaw none Wreq _
      (List.cons_ne_nil _ _) (List.cons_ne_nil _ _) (List.Perm.refl _) rfl⟩

/-- C2: for every request with at least one vehicle and every visiting
order the solver stage produces (a permutation of the job nodes), the
`job_id` fields of the returned Route Stops are a permutation of the ids
of the request's jobs — each job id appears exactly once. -/
theorem C2_stops_bijection_jobs (u : Bool)
    (netRaw : Coord → Coord → Except String (ℤ × ℤ)) (sol : Option (List ℕ))
    (req : OptimizeRequest) (resp : OptimizeResponse)
    (hv : req.vehicles ≠ [])
    (hord : (routeOrder sol (req.jobs.length + 1)).Perm (List.range' 1 req.jobs.length))
    (hresp : optimize u netRaw sol req = Except.ok resp) :
    (resp.route_stops.map (fun s => s.job_id)).Perm (req.jobs.map (fun j => j.id)) := by
  obtain ⟨d, ar, vehicles, js⟩ := req
  cases vehicles with
  | nil => exact absurd rfl hv
  | cons v vs =>
    simp only at hord ⊢
    simp only [optimize] at hresp
    rw [Except.ok.injEq] at hresp
    subst hresp
    simp only [List.length_cons, List.length_map]
    rw [schedLoop_map_job_id]
    have h1 := hord.map (fun node => (js.getD (node - 1) dummyJob).id)
    have h2 : (List.range' 1 js.length).map (fun node => (js.getD (node - 1) dummyJob).id)
        = js.map (fun j => j.id) := by
      show (List.range' 1 js.length).map
        ((fun j => j.id) ∘ (fun k => js.getD (k - 1) dummyJob)) = _
      rw [← List.map_map, map_getD_pred_range']
    rw [h2] at h1
    exact h1

theorem C2_stops_bijection_jobs_witness :
    (Wreq.vehicles ≠ [] ∧
      (routeOrder (some [2, 1]) (Wreq.jobs.length + 1)).Perm (List.range' 1 Wreq.jobs.length) ∧
      optimize false WnetRaw (some [2, 1]) Wreq
        = Except.ok (okOr (optimize false WnetRaw (some [2, 1]) Wreq))) ∧
    ((okOr (optimize false WnetRaw (some [2, 1]) Wreq)).route_stops.map
        (fun s => s.job_id)).Perm (Wreq.jobs.map (fun j => j.id)) :=
  ⟨⟨List.cons_ne_nil _ _, by decide, rfl⟩,
    C2_stops_bijection_jobs false WnetRaw (some [2, 1]) Wreq _
      (List.cons_ne_nil _ _) (by decide) rfl⟩

/-- C5: when the solver stage produces no feasible tour (`sol = none`),
the visiting order falls back to the natural input order 1..N-1, so for
every structurally valid request with at least one vehicle and a
non-empty job list `optimize` still returns a response (no hard
failure): exactly one route, with the stops visiting the jobs in input
order. -/
theorem C5_solver_fallback_natural_order (u : Bool)
    (netRaw : Coord → Coord → Except String (ℤ × ℤ)) (req : OptimizeRequest)
    (hv : req.vehicles ≠ []) (hj : req.jobs ≠ []) :
    ∃ resp, optimize u netRaw none req = Except.ok resp ∧
      resp.routes.length = 1 ∧
      resp.route_stops.map (fun s => s.job_id) = req.jobs.map (fun j => j.id) := by
  obtain ⟨d, ar, vehicles, js⟩ := req
  cases vehicles with
  | nil => exact absurd rfl hv
  | cons v vs =>
    refine ⟨_, rfl, rfl, ?_⟩
    simp only
    rw [schedLoop_map_job_id]
    simp only [routeOrder, List.length_cons, List.length_map, Nat.add_sub_cancel]
    show (List.range' 1 js.length).map
      ((fun j => j.id) ∘ (fun k => js.getD (k - 1) dummyJob)) = _
    rw [← List.map_map, map_getD_pred_range']

theorem C5_solver_fallback_natural_order_witness :
    (Wreq.vehicles ≠ [] ∧ Wreq.jobs ≠ []) ∧
    (∃ resp, optimize false WnetRaw none Wreq = Except.ok resp ∧
      resp.routes.length = 1 ∧
      resp.route_stops.map (fun s => s.job_id) = Wreq.jobs.map (fun j => j.id)) :=
  ⟨⟨List.cons_ne_nil _ _, List.cons_ne_nil _ _⟩,
    C5_solver_fallback_natural_order false WnetRaw Wreq
      (List.cons_ne_nil _ _) (List.cons_ne_nil _ _)⟩

/-- C8: for every request with at least one vehicle and an empty job
list (with the solver stage necessarily yielding the empty order),
`optimize` returns `distance_km = 0.0`, `duration_min = 0` and
`route_stops = []`. -/
theorem C8_empty_jobs_zero (u : Bool)
    (netRaw : Coord → Coord → Except String (ℤ × ℤ)) (sol : Option (List ℕ))
    (req : OptimizeRequest) (resp : OptimizeResponse)
    (hv : req.vehicles ≠ []) (hj : req.jobs = [])
    (hord : (routeOrder sol (req.jobs.length + 1)).Perm (List.range' 1 req.jobs.length))
    (hresp : optimize u netRaw sol req = Except.ok resp) :
    resp.routes.map (fun r => r.distance_km) = [0] ∧
    resp.routes.map (fun r => r.duration_min) = [0] ∧
    resp.route_stops = [] := by
  obtain ⟨d, ar, vehicles, js⟩ := req
  cases vehicles with
  | nil => exact absurd rfl hv
  | cons v vs =>
    simp only at hj
    subst hj
    simp only at hord
    have hnil : routeOrder sol 1 = [] := by
      have h0 := hord.eq_nil
      simpa using h0
    simp only [optimize] at hresp
    rw [Except.ok.injEq] at hresp
    subst hresp
    simp only [List.map_nil, List.length_cons, List.length_nil, Nat.zero_add]
    rw [hnil]
    simp only [schedLoop]
    simp [pyround2_zero]

theorem C8_empty_jobs_zero_witness :
    (WreqNoJobs.vehicles ≠ [] ∧ WreqNoJobs.jobs = [] ∧
      (routeOrder none (WreqNoJobs.jobs.length + 1)).Perm
        (List.range' 1 WreqNoJobs.jobs.length) ∧
      optimize false WnetRaw none WreqNoJobs
        = Except.ok (okOr (optimize false WnetRaw none WreqNoJobs))) ∧
    ((okOr (optimize false WnetRaw none WreqNoJobs)).routes.map
        (fun r => r.distance_km) = [0] ∧
      (okOr (optimize false WnetRaw none WreqNoJobs)).routes.map
        (fun r => r.duration_min) = [0] ∧
      (okOr (optimize false WnetRaw none WreqNoJobs)).route_stops = []) :=
  ⟨⟨List.cons_ne_nil _ _, rfl, List.Perm.refl _, rfl⟩,
    C8_empty_jobs_zero false WnetRaw none WreqNoJobs _
      (List.cons_ne_nil _ _) rfl (List.Perm.refl _) rfl⟩

/-- C10: for every request with at least one vehicle whose jobs all have
non-negative `service_min`, and every visiting order the solver stage
produces, the ETA timestamps of the returned stops are strictly
increasing in output order (every leg contributes at least 1 travel
minute), and the last stop's ETA equals the 09:00 day start (minute 540)
plus exactly the route's `duration_min`. -/
theorem C10_eta_strictly_increasing (u : Bool)
    (netRaw : Coord → Coord → Except String (ℤ × ℤ)) (sol : Option (List ℕ))
    (req : OptimizeRequest) (resp : OptimizeResponse)
    (hv : req.vehicles ≠ [])
    (hserv : ∀ j ∈ req.jobs, 0 ≤ j.service_min)
    (hord : (routeOrder sol (req.jobs.length + 1)).Perm (List.range' 1 req.jobs.length))
    (hresp : optimize u netRaw sol req = Except.ok resp) :
    List.Chain' (fun a b => a < b) (resp.route_stops.map (fun s => s.eta_min)) ∧
    (resp.route_stops ≠ [] →
      (resp.route_stops.getLastD dummyStop).eta_min
        = 540 + (resp.routes.headD dummyRoute).duration_min) := by
  obtain ⟨d, ar, vehicles, js⟩ := req
  cases vehicles with
  | nil => exact absurd rfl hv
  | cons v vs =>
    simp only at hord hserv ⊢
    simp only [optimize] at hresp
    rw [Except.ok.injEq] at hresp
    subst hresp
    simp only [List.length_cons, List.length_map]
    set pts : List Coord :=
      (v.depot_lat, v.depot_lng) :: js.map (fun j => (j.lat, j.lng)) with hpts
    set order : List ℕ := routeOrder sol (js.length + 1) with horderdef
    have hmem : ∀ node ∈ order, 1 ≤ node ∧ node < 1 + js.length := by
      intro node hn
      exact List.mem_range'_1.mp (hord.mem_iff.mp hn)
    have hserv' : ∀ node ∈ order, 0 ≤ (js.getD (node - 1) dummyJob).service_min := by
      intro node hn
      obtain ⟨h1, h2⟩ := hmem node hn
      have hlt : node - 1 < js.length := by omega
      rw [List.getD_eq_getElem js dummyJob hlt]
      exact hserv _ (List.getElem_mem _)
    have hnodup : (0 :: order).Nodup := by
      rw [List.nodup_cons]
      refine ⟨?_, hord.nodup_iff.mpr (List.nodup_range' _ _)⟩
      intro h0
      obtain ⟨h1, _⟩ := hmem 0 h0
      omega
    have hchain0 : List.Chain' (fun a b => a ≠ b) (0 :: order) :=
      List.Pairwise.chain' hnodup
    have hw : ∀ i j : ℕ, i ≠ j →
        1 ≤ (optCell u netRaw pts (v.depot_lat, v.depot_lng) i j).2 :=
      fun i j hij => optCell_snd_pos u netRaw pts (v.depot_lat, v.depot_lng) hij
    have hch := @schedLoop_eta_chain js
      (fun i j => (optCell u netRaw pts (v.depot_lat, v.depot_lng) i j).1)
      (fun i j => (optCell u netRaw pts (v.depot_lat, v.depot_lng) i j).2)
      order hw hserv' 0 1 (9 * 60) 0 0 hchain0
    constructor
    · exact (List.chain'_cons'.mp hch).2
    · intro hne
      have hne' : order ≠ [] := by
        intro h0
        apply hne
        have hlen := @schedLoop_length js
          (fun i j => (optCell u netRaw pts (v.depot_lat, v.depot_lng) i j).1)
          (fun i j => (optCell u netRaw pts (v.depot_lat, v.depot_lng) i j).2)
          order 0 1 (9 * 60) 0 0
        exact List.length_eq_zero.mp (by rw [hlen, h0]; rfl)
      have hlast := @schedLoop_eta_last js
        (fun i j => (optCell u netRaw pts (v.depot_lat, v.depot_lng) i j).1)
        (fun i j => (optCell u netRaw pts (v.depot_lat, v.depot_lng) i j).2)
        order 0 1 (9 * 60) 0 0 dummyStop hne'
      rw [hlast]
      simp only [List.headD_cons]
      omega

theorem C10_eta_strictly_increasing_witness :
    (Wreq.vehicles ≠ [] ∧ (∀ j ∈ Wreq.jobs, 0 ≤ j.service_min) ∧
      (routeOrder none (Wreq.jobs.length + 1)).Perm (List.range' 1 Wreq.jobs.length) ∧
      optimize false WnetRaw none Wreq = Except.ok (okOr (optimize false WnetRaw none Wreq))) ∧
    (List.Chain' (fun a b => a < b)
        ((okOr (optimize false WnetRaw none Wreq)).route_stops.map (fun s => s.eta_min)) ∧
      ((okOr (optimize false WnetRaw none Wreq)).route_stops ≠ [] →
        ((okOr (optimize false WnetRaw none Wreq)).route_stops.getLastD dummyStop).eta_min
          = 540 + ((okOr (optimize false WnetRaw none Wreq)).routes.headD
              dummyRoute).duration_min)) :=
  ⟨⟨List.cons_ne_nil _ _,
    by
      intro j hj
      simp only [Wreq, List.mem_cons, List.not_mem_nil, or_false] at hj
      rcases hj with h | h <;> subst h <;> norm_num,
    List.Perm.refl _, rfl⟩,
    C10_eta_strictly_increasing false WnetRaw none Wreq _
      (List.cons_ne_nil _ _)
      (by
        intro j hj
        simp only [Wreq, List.mem_cons, List.not_mem_nil, or_false] at hj
        rcases hj with h | h <;> subst h <;> norm_num)
      (List.Perm.refl _) rfl⟩

/-- C4 counterexample: the claim asserts the returned score always lies
in (0, 1]; on the concrete antipodal request the code returns score 0.0
(the rounded reciprocal underflows the two-decimal rounding), so
`0 < score` fails. -/
theorem C4_counterexample :
    ¬ (∀ resp, optimize false WnetRaw none C4req = Except.ok resp →
        0 < (resp.routes.headD dummyRoute).score) := by
  intro hcl
  have h := hcl (okOr (optimize false WnetRaw none C4req)) rfl
  have hs : ((okOr (optimize false WnetRaw none C4req)).routes.headD dummyRoute).score
      = scoreOf (0 + ((haversine_m (((90 : ℝ), (0 : ℝ)) : Coord)
          (((-90 : ℝ), (0 : ℝ)) : Coord) : ℤ) : ℝ) / 1000) := rfl
  rw [hs] at h
  have hz : scoreOf (0 + ((haversine_m (((90 : ℝ), (0 : ℝ)) : Coord)
      (((-90 : ℝ), (0 : ℝ)) : Coord) : ℤ) : ℝ) / 1000) = 0 := by
    apply scoreOf_eq_zero
    have hb := hav_antipodal_bounds.1
    have hb2 : (20015082 : ℝ) ≤ ((haversine_m (((90 : ℝ), (0 : ℝ)) : Coord)
        (((-90 : ℝ), (0 : ℝ)) : Coord) : ℤ) : ℝ) := by exact_mod_cast hb
    linarith
  rw [hz] at h
  exact lt_irrefl 0 h

/-- C4 (amended): for every request with at least one vehicle (and a
provider oracle reporting non-negative meters), the returned score is
exactly `round(1/(1 + km_total), 2)` for the accumulated non-negative
`km_total`; this score function is weakly decreasing in the total
distance, lies in the closed interval [0, 1] (it reaches 0.0 for large
distances, refuting the open lower bound), and equals 1.0 at zero total
distance. -/
theorem C4_score_amended (u : Bool)
    (netRaw : Coord → Coord → Except String (ℤ × ℤ)) (sol : Option (List ℕ))
    (req : OptimizeRequest) (resp : OptimizeResponse)
    (hv : req.vehicles ≠ [])
    (hnet : ∀ a b p, netRaw a b = Except.ok p → 0 ≤ p.1)
    (hresp : optimize u netRaw sol req = Except.ok resp) :
    (∃ km : ℝ, 0 ≤ km ∧
      resp.routes.map (fun r => r.score) = [scoreOf km] ∧
      resp.routes.map (fun r => r.distance_km) = [pyround2 km]) ∧
    (∀ x y : ℝ, 0 ≤ x → x ≤ y → scoreOf y ≤ scoreOf x) ∧
    (∀ x : ℝ, 0 ≤ x → 0 ≤ scoreOf x ∧ scoreOf x ≤ 1) ∧
    scoreOf 0 = 1 := by
  refine ⟨?_, fun x y hx hxy => scoreOf_mono hx hxy, fun x hx => scoreOf_bounds hx,
    scoreOf_zero⟩
  obtain ⟨d, ar, vehicles, js⟩ := req
  cases vehicles with
  | nil => exact absurd rfl hv
  | cons v vs =>
    simp only [optimize] at hresp
    rw [Except.ok.injEq] at hresp
    subst hresp
    refine ⟨(schedLoop js
        (fun i j => (optCell u netRaw
          ((v.depot_lat, v.depot_lng) :: js.map (fun j => (j.lat, j.lng)))
          (v.depot_lat, v.depot_lng) i j).1)
        (fun i j => (optCell u netRaw
          ((v.depot_lat, v.depot_lng) :: js.map (fun j => (j.lat, j.lng)))
          (v.depot_lat, v.depot_lng) i j).2)
        (routeOrder sol ((v.depot_lat, v.depot_lng) ::
          js.map (fun j => (j.lat, j.lng))).length) 0 1 (9 * 60) 0 0).2.1,
      ?_, rfl, rfl⟩
    exact schedLoop_km_nonneg _
      (fun i j => optCell_fst_nonneg u netRaw _ _ i j hnet) 0 1 (9 * 60) 0 0 le_rfl

theorem C4_score_amended_witness :
    (Wreq.vehicles ≠ [] ∧
      (∀ a b p, WnetRaw a b = Except.ok p → 0 ≤ p.1) ∧
      optimize false WnetRaw none Wreq = Except.ok (okOr (optimize false WnetRaw none Wreq))) ∧
    ((∃ km : ℝ, 0 ≤ km ∧
        (okOr (optimize false WnetRaw none Wreq)).routes.map (fun r => r.score) = [scoreOf km] ∧
        (okOr (optimize false WnetRaw none Wreq)).routes.map
          (fun r => r.distance_km) = [pyround2 km]) ∧
      (∀ x y : ℝ, 0 ≤ x → x ≤ y → scoreOf y ≤ scoreOf x) ∧
      (∀ x : ℝ, 0 ≤ x → 0 ≤ scoreOf x ∧ scoreOf x ≤ 1) ∧
      scoreOf 0 = 1) :=
  ⟨⟨List.cons_ne_nil _ _,
    fun a b p h => absurd h (by simp [WnetRaw]),
    rfl⟩,
    C4_score_amended false WnetRaw none Wreq _
      (List.cons_ne_nil _ _)
      (fun a b p h => absurd h (by simp [WnetRaw])) rfl⟩

/-- C9 counterexample: on the scenario request (depot (37.5, 127.0),
one job at (37.51, 127.01), provider disabled) the code's score is 0.41,
not the claimed `round(1/(1+1.25), 2) = 0.44` — the true haversine
distance of the leg is 1419 m (about 1.42 km), not about 1.25 km. -/
theorem C9_counterexample :
    ¬ (∀ resp, optimize false WnetRaw (some [1]) C9req = Except.ok resp →
        (resp.routes.headD dummyRoute).score = 0.44) := by
  intro hcl
  have h := hcl (okOr (optimize false WnetRaw (some [1]) C9req)) rfl
  have hs : ((okOr (optimize false WnetRaw (some [1]) C9req)).routes.headD dummyRoute).score
      = scoreOf (0 + ((distance_time false (Except.error "net down")
          (((37.5 : ℝ), (127.0 : ℝ)) : Coord)
          (((37.51 : ℝ), (127.01 : ℝ)) : Coord)).1 : ℝ) / 1000) := rfl
  rw [hs, dt_scenario] at h
  have hval : scoreOf (0 + ((((1419 : ℤ), (18 : ℤ)).1 : ℤ) : ℝ) / 1000) = 0.41 :=
    scoreOf_val_1419
  rw [hval] at h
  norm_num at h

/-- C9 (amended): on the scenario request with the provider disabled and
the solver visiting the single job, `optimize` returns exactly one stop
with seq 1, job id 1, ETA 09:28 (minute 568 = 09:00 + 18 travel minutes
+ 10 service minutes; the haversine leg is 1419 m, so `1419 // 75 = 18`),
and one route with `distance_km = 1.42`, `duration_min = 28` and
`score = round(1/(1+1.419), 2) = 0.41`. -/
theorem C9_scenario_eval (resp : OptimizeResponse)
    (hresp : optimize false WnetRaw (some [1]) C9req = Except.ok resp) :
    resp.route_stops.map (fun s => (s.seq, s.job_id, s.eta_min, s.etc_min))
      = [(1, 1, 568, 10)] ∧
    resp.routes.map (fun r => (r.distance_km, r.duration_min, r.score))
      = [((1.42 : ℝ), (28 : ℤ), (0.41 : ℝ))] := by
  have hbody : resp = okOr (optimize false WnetRaw (some [1]) C9req) := by
    rw [hresp]
    rfl
  rw [hbody]
  constructor
  · have h1 : (okOr (optimize false WnetRaw (some [1]) C9req)).route_stops.map
        (fun s => (s.seq, s.job_id, s.eta_min, s.etc_min))
        = [((1 : ℤ), (1 : ℤ),
            9 * 60 + (distance_time false (Except.error "net down")
              (((37.5 : ℝ), (127.0 : ℝ)) : Coord)
              (((37.51 : ℝ), (127.01 : ℝ)) : Coord)).2 + 10, (10 : ℤ))] := rfl
    rw [h1, dt_scenario]
    norm_num
  · have h2 : (okOr (optimize false WnetRaw (some [1]) C9req)).routes.map
        (fun r => (r.distance_km, r.duration_min, r.score))
        = [(pyround2 (0 + ((distance_time false (Except.error "net down")
              (((37.5 : ℝ), (127.0 : ℝ)) : Coord)
              (((37.51 : ℝ), (127.01 : ℝ)) : Coord)).1 : ℝ) / 1000),
            0 + (distance_time false (Except.error "net down")
              (((37.5 : ℝ), (127.0 : ℝ)) : Coord)
              (((37.51 : ℝ), (127.01 : ℝ)) : Coord)).2 + 10,
            scoreOf (0 + ((distance_time false (Except.error "net down")
              (((37.5 : ℝ), (127.0 : ℝ)) : Coord)
              (((37.51 : ℝ), (127.01 : ℝ)) : Coord)).1 : ℝ) / 1000))] := rfl
    rw [h2, dt_scenario]
    have ha : pyround2 (0 + ((((1419 : ℤ), (18 : ℤ)).1 : ℤ) : ℝ) / 1000) = 1.42 :=
      pyround2_val_1419
    have hb : scoreOf (0 + ((((1419 : ℤ), (18 : ℤ)).1 : ℤ) : ℝ) / 1000) = 0.41 :=
      scoreOf_val_1419
    rw [ha, hb]
    norm_num

theorem C9_scenario_eval_witness :
    (optimize false WnetRaw (some [1]) C9req
        = Except.ok (okOr (optimize false WnetRaw (some [1]) C9req))) ∧
    ((okOr (optimize false WnetRaw (some [1]) C9req)).route_stops.map
        (fun s => (s.seq, s.job_id, s.eta_min, s.etc_min)) = [(1, 1, 568, 10)] ∧
      (okOr (optimize false WnetRaw (some [1]) C9req)).routes.map
        (fun r => (r.distance_km, r.duration_min, r.score))
        = [((1.42 : ℝ), (28 : ℤ), (0.41 : ℝ))]) :=
  ⟨rfl, C9_scenario_eval _ rfl⟩

end Claims
